import Mathlib

/-!
Verification of the terminal session lifecycle core of the `superset`
desktop workspace manager, together with two UI-level state helpers
(`useDiffData.loadDiff` and `Sidebar.toggleGroupCollapse`) embedded from
the renderer sources.

The Session Manager core (Registry, Driver, Reconciler, Health Monitor,
Capability Probe) is described by the design documents
(`TMUX_PERSISTENCE_DESIGN.md` and the system specification); its
implementation modules are not among the provided renderer sources, so
those parts are modelled from the specification text, with each such
definition marked `Modelled from the spec:` in its doc comment.
-/

namespace Superset

/-- Modelled from the spec: the `SessionState` enumeration
`Unborn → Starting → Attached → Detached → Orphaned → Dead` (§3 of the
design spec); the implementation module is not among the sources. -/
inductive SessionState where
  | Unborn
  | Starting
  | Attached
  | Detached
  | Orphaned
  | Dead
deriving DecidableEq, Repr

/-- Modelled from the spec: the tagged backing variant
`{Direct | HostBacked}` of a session record (§3, §9 of the design spec). -/
inductive Backing where
  | Direct
  | HostBacked
deriving DecidableEq, Repr

/-- Modelled from the spec: `SessionRecord` — `{id, name, backing,
processHandle, state, createdAt, lastSeenAt, persist}` (§3 of the design
spec); the Registry implementation is not among the sources. -/
structure SessionRecord where
  id : String
  name : String
  backing : Backing
  handle : Nat
  state : SessionState
  createdAt : Nat
  lastSeenAt : Nat
  persist : Bool
deriving DecidableEq, Repr

/-- Modelled from the spec: the result of `Registry.Ensure` — the updated
registry, the record handed back to the caller, and whether a new spawn
was performed. -/
structure EnsureResult where
  reg : List SessionRecord
  record : SessionRecord
  spawned : Bool
deriving Repr

/-- Modelled from the spec: `Registry.Ensure(id)` (§4.2) — "calling it
twice for the same id while a record exists in any non-`Dead` state
returns the existing record unchanged and performs no new spawn"; when no
such record exists a genuinely new record (`fresh`, produced by the
spawn/attach path) is inserted and `spawned` is reported. The Registry
implementation module is not among the sources. A record counts as live
for id `i` when it carries that id in any non-`Dead` state. -/
def liveFor (i : String) (r : SessionRecord) : Bool :=
  decide (r.id = i ∧ r.state ≠ SessionState.Dead)

/-- Modelled from the spec: the `Ensure` operation itself — reuse the
live record when one exists, otherwise insert the freshly spawned one. -/
def ensure (reg : List SessionRecord) (i : String) (fresh : SessionRecord) :
    EnsureResult :=
  match reg.find? (liveFor i) with
  | some r => ⟨reg, r, false⟩
  | none => ⟨fresh :: reg, fresh, true⟩

/-- Modelled from the spec: the Driver error taxonomy (§7). -/
inductive DriverError where
  | HostUnavailable
  | SessionNotFound
  | SpawnFailed
  | NotDetachable
deriving DecidableEq, Repr

/-- Modelled from the spec: the per-record effect of `Driver.Detach`
(§4.3) — `Attached → Detached`; a record not in `Attached` is left as it
is. The Driver implementation module is not among the sources. -/
def detachRecord (r : SessionRecord) : SessionRecord :=
  if r.state = SessionState.Attached then { r with state := SessionState.Detached } else r

/-- Modelled from the spec: the per-record effect of `Driver.Kill`
(§4.3) — `any → Dead`. -/
def killRecord (r : SessionRecord) : SessionRecord :=
  { r with state := SessionState.Dead }

/-- Modelled from the spec: the Registry lookup predicate matching a
record by its terminal id. -/
def sameId (i : String) (r : SessionRecord) : Bool :=
  decide (r.id = i)

/-- Modelled from the spec: `Driver.Detach(id)` (§4.3) — closes the
application's I/O channel but leaves a host-backed process running; a
`Direct`-backing session cannot be detached and the call is rejected with
`NotDetachable`; a missing id reports `SessionNotFound`. In no case is
any record killed or removed. -/
def detach (reg : List SessionRecord) (i : String) :
    List SessionRecord × Option DriverError :=
  match reg.find? (sameId i) with
  | none => (reg, some DriverError.SessionNotFound)
  | some r =>
    match r.backing with
    | Backing.Direct => (reg, some DriverError.NotDetachable)
    | Backing.HostBacked =>
        (reg.map (fun s => if s.id = i then detachRecord s else s), none)

/-- From `src/unnamed/part_004` lines 80-85: the terminal-creation effect
of `TerminalInstance` registers no cleanup function, so UI teardown
(unmount) of a persistent terminal performs no action against the
session registry — terminals persist in the backend and are only killed
when explicitly removed. -/
def terminalInstanceUnmount (reg : List SessionRecord) : List SessionRecord :=
  reg

/-- Modelled from the spec: `SessionManager.ShutdownAll()` (§4.6) —
called once at application exit; `Detach` every `persist=true` record and
`Kill` every `persist=false` record. The façade implementation module is
not among the sources. -/
def shutdownAll (reg : List SessionRecord) : List SessionRecord :=
  reg.map (fun r => if r.persist then detachRecord r else killRecord r)

/-- Modelled from the spec: the Health Monitor configuration surface
(§6) — `sessionTTL` and `maxOrphanedSessions`, read once at startup. -/
structure HealthConfig where
  sessionTTL : Nat
  maxOrphanedSessions : Nat
deriving Repr

/-- Modelled from the spec: a record is subject to health cleanup only
when `Detached` or `Orphaned` (§4.5). -/
def isCleanupCandidate (r : SessionRecord) : Bool :=
  decide (r.state = SessionState.Detached) || decide (r.state = SessionState.Orphaned)

/-- Modelled from the spec: the Health Monitor TTL test (§4.5) — the age
of a `Detached`/`Orphaned` record exceeds the configured TTL. -/
def ttlExpired (cfg : HealthConfig) (now : Nat) (r : SessionRecord) : Bool :=
  isCleanupCandidate r && decide (cfg.sessionTTL < now - r.createdAt)

/-- Modelled from the spec: the number of `Orphaned` records currently
in the registry (§4.5). -/
def orphanCount (reg : List SessionRecord) : Nat :=
  (reg.filter (fun r => decide (r.state = SessionState.Orphaned))).length

/-- Modelled from the spec: the number of `Orphaned` records strictly
older (created earlier) than `r` (§4.5, oldest-created-first order). -/
def olderOrphans (reg : List SessionRecord) (r : SessionRecord) : Nat :=
  (reg.filter (fun s =>
    decide (s.state = SessionState.Orphaned) && decide (s.createdAt < r.createdAt))).length

/-- Modelled from the spec: the max-orphan-count eviction test (§4.5) —
when the orphan count exceeds `maxOrphanedSessions`, the oldest excess
orphans (fewer strictly-older orphans than the excess) are killed first. -/
def evictExcess (cfg : HealthConfig) (reg : List SessionRecord) (r : SessionRecord) : Bool :=
  decide (r.state = SessionState.Orphaned) &&
    decide (olderOrphans reg r < orphanCount reg - cfg.maxOrphanedSessions)

/-- Modelled from the spec: the effect of one Health Monitor tick on one
record (§4.5) — `Kill` on TTL expiry or max-orphan eviction, acting only
on `Detached`/`Orphaned` records; everything else is left untouched. -/
def tickRecord (cfg : HealthConfig) (now : Nat) (reg : List SessionRecord)
    (r : SessionRecord) : SessionRecord :=
  if ttlExpired cfg now r || evictExcess cfg reg r then killRecord r else r

/-- Modelled from the spec: one Health Monitor tick over the whole
registry (§4.5). The Health Monitor implementation module is not among
the sources. -/
def healthTick (cfg : HealthConfig) (now : Nat) (reg : List SessionRecord) :
    List SessionRecord :=
  reg.map (tickRecord cfg now reg)

/-- From `TMUX_PERSISTENCE_DESIGN.md` (Session Naming Convention): the
fixed application tag prepended to every terminal id. -/
def sessionNameBase : String := "superset-"

/-- From `TMUX_PERSISTENCE_DESIGN.md` (Session Naming Convention): each
terminal session maps to a host session with the deterministic name
`superset-<terminal-id>` — a pure function of the id, never stored. -/
def sessionName (i : String) : String := sessionNameBase ++ i

/-- Modelled from the spec: a session present on the external host — its
name and creation time (the host's view, listed by `list-sessions`). -/
structure HostSession where
  name : String
  createdAt : Nat
deriving DecidableEq, Repr

/-- Modelled from the spec: `OrphanDescriptor` — `{name, discoveredAt,
estimatedAge}` (§3), a read-only projection carrying no process handle. -/
structure OrphanDescriptor where
  name : String
  discoveredAt : Nat
  estimatedAge : Nat
deriving DecidableEq, Repr

/-- Modelled from the spec: `Reconciler.Discover()` (§4.4) — list all
host sessions whose name matches the application's naming tag, strip the
tag to recover the terminal-id candidate, and classify as orphaned those
not referenced by any persisted workspace tab. The Reconciler
implementation module is not among the sources. -/
def discover (now : Nat) (host : List HostSession) (knownIds : List String) :
    List OrphanDescriptor :=
  (host.filter (fun h =>
      sessionNameBase.isPrefixOf h.name &&
        !(knownIds.contains (h.name.drop sessionNameBase.length)))).map
    (fun h => ⟨h.name, now, now - h.createdAt⟩)

/-- Modelled from the spec: `Discover` as a state-passing operation over
the host namespace and the Registry, making its read-only character
explicit — it returns the descriptor snapshot together with the (wholly
unmodified) host and Registry states. -/
def discoverFull (now : Nat) (host : List HostSession) (reg : List SessionRecord)
    (knownIds : List String) :
    List OrphanDescriptor × List HostSession × List SessionRecord :=
  (discover now host knownIds, host, reg)

/-- Modelled from the spec: what can make the capability probe fail —
absence of the host binary, or a failed version check (§4.1 and
`checkTmuxInstalled` in `TMUX_PERSISTENCE_DESIGN.md`). -/
inductive ProbeFailure where
  | binaryMissing
  | versionCheckFailed
deriving DecidableEq, Repr

/-- Modelled from the spec: the environment facts the capability probe
observes — whether the host binary is installed and whether its version
check succeeds. -/
structure HostEnv where
  binaryInstalled : Bool
  versionOk : Bool
deriving DecidableEq, Repr

/-- Modelled from the spec: the raw external probe invocation
(`checkTmuxInstalled` in `TMUX_PERSISTENCE_DESIGN.md`), which can fail
with either failure condition. -/
def runHostProbe (e : HostEnv) : Except ProbeFailure Bool :=
  if e.binaryInstalled = false then Except.error ProbeFailure.binaryMissing
  else if e.versionOk = false then Except.error ProbeFailure.versionCheckFailed
  else Except.ok true

/-- Modelled from the spec: `IsHostAvailable()` (§4.1) — must never
throw; absence of the host binary or a failed version check both resolve
to `false`. -/
def isHostAvailable (e : HostEnv) : Bool :=
  match runHostProbe e with
  | Except.ok b => b
  | Except.error _ => false

/-- From `src/unnamed/part_001`: one changed file entry inside the diff
payload (`result.diff.files`); its further structure is irrelevant here. -/
structure DiffFile where
  path : String
deriving DecidableEq, Repr

/-- From `src/unnamed/part_001`: the `diff` field of a successful
`worktree-get-git-diff` result. -/
structure DiffPayload where
  files : List DiffFile
deriving DecidableEq, Repr

/-- From `src/unnamed/part_001`: the `DiffViewData` shape built by
`loadDiff` — `{title, description, timestamp, files}`. -/
structure DiffViewData where
  title : String
  description : Option String
  timestamp : String
  files : List DiffFile
deriving DecidableEq, Repr

/-- From `src/unnamed/part_001`: the object the `worktree-get-git-diff`
IPC call resolves with — `success`, an optional `diff` payload and an
optional `error` string (`none` models an absent or nullish field). -/
structure DiffResult where
  success : Bool
  diff : Option DiffPayload
  error : Option String
deriving DecidableEq, Repr

/-- From `src/unnamed/part_001`: how one invocation of the IPC call
resolves — it either throws with a message (`err instanceof Error ?
err.message : "Unknown error"`, always a string) or returns a value,
itself possibly nullish. -/
inductive IpcOutcome where
  | threw (message : String)
  | returned (result : Option DiffResult)
deriving DecidableEq, Repr

/-- From `src/unnamed/part_001`: the four `useState` cells of
`useDiffData` — `loading`, `refreshing`, `diffData`, `error`. -/
structure DiffState where
  loading : Bool
  refreshing : Bool
  diffData : Option DiffViewData
  error : Option String
deriving DecidableEq, Repr

/-- From `src/unnamed/part_001`: JavaScript truthiness of an optional
string (`!workspaceId` is true for both `undefined` and `""`). -/
def optStrTruthy : Option String → Bool
  | none => false
  | some s => decide (s ≠ "")

/-- From `src/unnamed/part_001`: the success test on the IPC result —
`result && typeof result === "object" && "success" in result &&
result.success && "diff" in result && result.diff`. -/
def resultOk (r : DiffResult) : Bool :=
  r.success && r.diff.isSome

/-- From `src/unnamed/part_001`: the error message chosen on an
unsuccessful result — `result.error` when present and truthy, otherwise
`"Failed to load diff"`. -/
def failureMessage (r : DiffResult) : String :=
  let m := r.error.getD "Failed to load diff"
  if m = "" then "Failed to load diff" else m

/-- From `src/unnamed/part_001`: the `DiffViewData` constructed on
success — title from the worktree branch, optional workspace
description, the formatted timestamp and the diff's files. -/
def mkDiffViewData (worktreeBranch workspaceName : Option String)
    (timestamp : String) (files : List DiffFile) : DiffViewData :=
  { title := "Changes in " ++ worktreeBranch.getD "worktree",
    description := workspaceName.map (fun n => "Workspace: " ++ n),
    timestamp := timestamp,
    files := files }

/-- From `src/unnamed/part_001` lines 39-81: one invocation of
`loadDiff(isRefresh)` as a state transformer on the hook's four cells.
The guard mirrors `!enabled || !workspaceId || !worktreeId`; on passing
it, the appropriate busy flag is raised and `error` cleared, the IPC
outcome is dispatched exactly as in the source, and the `finally` block
lowers the busy flag that was raised. -/
def loadDiff (enabled : Bool) (workspaceId worktreeId : Option String)
    (worktreeBranch workspaceName : Option String) (timestamp : String)
    (isRefresh : Bool) (outcome : IpcOutcome) (st : DiffState) : DiffState :=
  if !enabled || !optStrTruthy workspaceId || !optStrTruthy worktreeId then
    { st with diffData := none, error := none }
  else
    let st1 := if isRefresh then { st with refreshing := true } else { st with loading := true }
    let st2 := { st1 with error := none }
    let st3 :=
      match outcome with
      | IpcOutcome.threw m => { st2 with error := some m }
      | IpcOutcome.returned none => { st2 with error := some "Failed to load diff" }
      | IpcOutcome.returned (some r) =>
          if resultOk r then
            let built := mkDiffViewData worktreeBranch workspaceName timestamp
              ((r.diff.getD ⟨[]⟩).files)
            { st2 with diffData := some built }
          else
            { st2 with error := some (failureMessage r) }
    if isRefresh then { st3 with refreshing := false } else { st3 with loading := false }

/-- From `src/unnamed/part_002` / `part_003`: the `type` union of a
sidebar tab — `"terminal" | "browser" | "folder"`. -/
inductive SidebarTabType where
  | terminal
  | browser
  | folder
deriving DecidableEq, Repr

/-- From `src/unnamed/part_002` / `part_003`: the sidebar `Tab` shape —
`{id, title, icon?, url?, type}`. -/
structure SidebarTab where
  id : String
  title : String
  icon : Option String
  url : Option String
  type : SidebarTabType
deriving DecidableEq, Repr

/-- From `src/unnamed/part_002` / `part_003`: the sidebar `TabGroup`
shape — `{id, name, tabs, isCollapsed?}`; the optional flag is `none`
when the field is absent. -/
structure SidebarTabGroup where
  id : String
  name : String
  tabs : List SidebarTab
  isCollapsed : Option Bool
deriving DecidableEq, Repr

/-- From `src/unnamed/part_002` / `part_003`: the per-group body of
`toggleGroupCollapse` — `group.id === groupId ? {...group, isCollapsed:
!group.isCollapsed} : group`; `!undefined` is `true`, so the flag
defaults to `false` before negation and is always set afterwards. -/
def toggleOne (groupId : String) (group : SidebarTabGroup) : SidebarTabGroup :=
  if group.id = groupId then
    { group with isCollapsed := some (!(group.isCollapsed.getD false)) }
  else group

/-- From `src/unnamed/part_002` / `part_003` lines 61-69:
`toggleGroupCollapse(groupId)` maps the per-group toggle over the whole
tab-group list. -/
def toggleGroupCollapse (groups : List SidebarTabGroup) (groupId : String) :
    List SidebarTabGroup :=
  groups.map (toggleOne groupId)

/-- From `src/unnamed/part_002` / `part_003`: the stub tab-group data the
`Sidebar` component's `useState` starts from; every group sets
`isCollapsed` explicitly. -/
def initialTabGroups : List SidebarTabGroup :=
  [{ id := "group-1", name := "Development", isCollapsed := some false,
     tabs := [
       { id := "1", title := "Terminal", icon := none, url := none,
         type := SidebarTabType.terminal },
       { id := "2", title := "localhost:3000", icon := none,
         url := some "http://localhost:3000", type := SidebarTabType.browser },
       { id := "3", title := "API Docs", icon := none,
         url := some "http://localhost:4000/docs", type := SidebarTabType.browser }] },
   { id := "group-2", name := "Research", isCollapsed := some false,
     tabs := [
       { id := "4", title := "GitHub", icon := none,
         url := some "https://github.com", type := SidebarTabType.browser },
       { id := "5", title := "Stack Overflow", icon := none,
         url := some "https://stackoverflow.com", type := SidebarTabType.browser }] },
   { id := "group-3", name := "Project Files", isCollapsed := some true,
     tabs := [
       { id := "6", title := "/src", icon := none, url := none,
         type := SidebarTabType.folder },
       { id := "7", title := "/docs", icon := none, url := none,
         type := SidebarTabType.folder }] }]

/-- A concrete host-backed, attached, persistent record used to
instantiate the lifecycle theorems. -/
def recA : SessionRecord :=
  { id := "t1", name := sessionName "t1", backing := Backing.HostBacked,
    handle := 7, state := SessionState.Attached, createdAt := 0,
    lastSeenAt := 0, persist := true }

/-- A concrete direct, attached, non-persistent record used to
instantiate the lifecycle theorems. -/
def recB : SessionRecord :=
  { id := "t2", name := sessionName "t2", backing := Backing.Direct,
    handle := 9, state := SessionState.Attached, createdAt := 1,
    lastSeenAt := 1, persist := false }

/-- A concrete freshly-spawned record (same id as `recA`, different
handle) that `ensure` would insert were no live record present. -/
def recFresh : SessionRecord :=
  { id := "t1", name := sessionName "t1", backing := Backing.HostBacked,
    handle := 8, state := SessionState.Attached, createdAt := 5,
    lastSeenAt := 5, persist := true }

/-- A concrete orphaned record created earlier than `orphNew`. -/
def orphOld : SessionRecord :=
  { id := "o1", name := sessionName "o1", backing := Backing.HostBacked,
    handle := 11, state := SessionState.Orphaned, createdAt := 10,
    lastSeenAt := 10, persist := true }

/-- A concrete orphaned record created later than `orphOld`. -/
def orphNew : SessionRecord :=
  { id := "o2", name := sessionName "o2", backing := Backing.HostBacked,
    handle := 12, state := SessionState.Orphaned, createdAt := 20,
    lastSeenAt := 20, persist := true }

lemma detachRecord_id (r : SessionRecord) : (detachRecord r).id = r.id := by
  unfold detachRecord; split <;> rfl

lemma detachRecord_persist (r : SessionRecord) : (detachRecord r).persist = r.persist := by
  unfold detachRecord; split <;> rfl

lemma detachRecord_ne_dead (r : SessionRecord) (h : r.state ≠ SessionState.Dead) :
    (detachRecord r).state ≠ SessionState.Dead := by
  unfold detachRecord; split
  · simp
  · exact h

lemma shutdownAll_keeps_persistent (reg : List SessionRecord) :
    ∀ r ∈ reg, r.persist = true → r.state ≠ SessionState.Dead →
      ∃ s ∈ shutdownAll reg, s.id = r.id ∧ s.state ≠ SessionState.Dead := by
  intro r hr hp hdead
  refine ⟨if r.persist then detachRecord r else killRecord r,
    List.mem_map_of_mem _ hr, ?_, ?_⟩
  · rw [hp]; simp [detachRecord_id]
  · rw [hp]; simp [detachRecord_ne_dead r hdead]

/-- C1: `Ensure` is idempotent — while a record for `i` exists in any
non-`Dead` state, two successive calls with identical arguments both
report no spawn, return the same record (hence the same underlying
process handle), and leave the registry unchanged. -/
theorem ensure_idempotent (reg : List SessionRecord) (i : String)
    (fresh1 fresh2 : SessionRecord) (r : SessionRecord) (hmem : r ∈ reg)
    (hid : r.id = i) (hstate : r.state ≠ SessionState.Dead) :
    (ensure reg i fresh1).spawned = false ∧
    (ensure (ensure reg i fresh1).reg i fresh2).spawned = false ∧
    (ensure (ensure reg i fresh1).reg i fresh2).record =
      (ensure reg i fresh1).record ∧
    (ensure (ensure reg i fresh1).reg i fresh2).record.handle =
      (ensure reg i fresh1).record.handle ∧
    (ensure (ensure reg i fresh1).reg i fresh2).reg = reg := by
  have hsome : (reg.find? (liveFor i)).isSome := by
    rw [List.find?_isSome]
    exact ⟨r, hmem, by simp [liveFor, hid, hstate]⟩
  cases hfind : reg.find? (liveFor i) with
  | none => rw [hfind] at hsome; simp at hsome
  | some r0 => simp [ensure, hfind]

/-- Witness for C1 at a concrete registry holding a live record. -/
theorem ensure_idempotent_witness :
    recA.id = "t1" ∧ recA.state ≠ SessionState.Dead ∧
    ((ensure [recA] "t1" recFresh).spawned = false ∧
     (ensure (ensure [recA] "t1" recFresh).reg "t1" recFresh).spawned = false ∧
     (ensure (ensure [recA] "t1" recFresh).reg "t1" recFresh).record =
       (ensure [recA] "t1" recFresh).record ∧
     (ensure (ensure [recA] "t1" recFresh).reg "t1" recFresh).record.handle =
       (ensure [recA] "t1" recFresh).record.handle ∧
     (ensure (ensure [recA] "t1" recFresh).reg "t1" recFresh).reg = [recA]) :=
  ⟨rfl, by decide,
   ensure_idempotent [recA] "t1" recFresh recFresh recA (by simp) rfl (by decide)⟩

/-- C2: a record is never destroyed except by an explicit kill intent —
`Detach` removes nothing from the registry and never produces a `Dead`
record; UI teardown of a terminal performs no registry action at all; and
application shutdown leaves every persistent record alive (non-`Dead`). -/
theorem detach_never_destroys (reg : List SessionRecord) (i : String) :
    (detach reg i).1.length = reg.length ∧
    terminalInstanceUnmount reg = reg ∧
    (∀ r ∈ reg, r.state ≠ SessionState.Dead →
      ∃ s ∈ (detach reg i).1, s.id = r.id ∧ s.state ≠ SessionState.Dead) ∧
    (∀ r ∈ reg, r.persist = true → r.state ≠ SessionState.Dead →
      ∃ s ∈ shutdownAll reg, s.id = r.id ∧ s.state ≠ SessionState.Dead) := by
  unfold detach
  cases hfind : reg.find? (sameId i) with
  | none =>
    exact ⟨rfl, rfl, fun r hr hd => ⟨r, hr, rfl, hd⟩,
      shutdownAll_keeps_persistent reg⟩
  | some r0 =>
    cases hb : r0.backing with
    | Direct =>
      simp only [hb]
      exact ⟨by simp, rfl, fun r hr hd => ⟨r, hr, rfl, hd⟩,
        shutdownAll_keeps_persistent reg⟩
    | HostBacked =>
      simp only [hb]
      refine ⟨by simp, rfl, ?_, shutdownAll_keeps_persistent reg⟩
      intro r hr hdead
      refine ⟨if r.id = i then detachRecord r else r,
        List.mem_map_of_mem _ hr, ?_, ?_⟩
      · split
        · exact detachRecord_id r
        · rfl
      · split
        · exact detachRecord_ne_dead r hdead
        · exact hdead

/-- Witness for C2 at a concrete two-record registry. -/
theorem detach_never_destroys_witness :
    recA.state ≠ SessionState.Dead ∧ recA.persist = true ∧
    (∃ s ∈ (detach [recA, recB] "t1").1,
      s.id = recA.id ∧ s.state ≠ SessionState.Dead) ∧
    (∃ s ∈ shutdownAll [recA, recB],
      s.id = recA.id ∧ s.state ≠ SessionState.Dead) :=
  ⟨by decide, rfl,
   (detach_never_destroys [recA, recB] "t1").2.2.1 recA (by simp) (by decide),
   (detach_never_destroys [recA, recB] "t1").2.2.2 recA (by simp) rfl (by decide)⟩

/-- C3: after `ShutdownAll()` on a registry of live (attached) records,
every record created with `persist=true` is in state `Detached` (not
`Dead`) and every record with `persist=false` is in state `Dead`. -/
theorem shutdownAll_states (reg : List SessionRecord)
    (hall : ∀ r ∈ reg, r.state = SessionState.Attached) :
    ∀ s ∈ shutdownAll reg,
      (s.persist = true → s.state = SessionState.Detached ∧ s.state ≠ SessionState.Dead) ∧
      (s.persist = false → s.state = SessionState.Dead) := by
  intro s hs
  rcases List.mem_map.mp hs with ⟨r, hr, hfr⟩
  have hstate := hall r hr
  subst hfr
  by_cases hp : r.persist <;>
    simp [hp, detachRecord, killRecord, hstate]

/-- Witness for C3 at a concrete registry with one persistent and one
non-persistent attached record. -/
theorem shutdownAll_states_witness :
    (∀ r ∈ [recA, recB], r.state = SessionState.Attached) ∧
    (∀ s ∈ shutdownAll [recA, recB],
      (s.persist = true → s.state = SessionState.Detached ∧ s.state ≠ SessionState.Dead) ∧
      (s.persist = false → s.state = SessionState.Dead)) :=
  ⟨by decide, shutdownAll_states [recA, recB] (by decide)⟩

/-- C4: a Health Monitor tick never touches an `Attached` record — for
every configuration (hence every TTL) the per-record tick fixes it, so it
stays in the registry in state `Attached` and is never transitioned to
`Dead` or killed. -/
theorem healthTick_attached_untouched (cfg : HealthConfig) (now : Nat)
    (reg : List SessionRecord) (r : SessionRecord) (hmem : r ∈ reg)
    (hstate : r.state = SessionState.Attached) :
    tickRecord cfg now reg r = r ∧ r ∈ healthTick cfg now reg := by
  have h1 : tickRecord cfg now reg r = r := by
    simp [tickRecord, ttlExpired, evictExcess, isCleanupCandidate, hstate]
  refine ⟨h1, ?_⟩
  simpa [healthTick, h1] using List.mem_map_of_mem (tickRecord cfg now reg) hmem

/-- Witness for C4 at a concrete attached record and a zero TTL. -/
theorem healthTick_attached_witness :
    recA.state = SessionState.Attached ∧
    (tickRecord ⟨0, 0⟩ 100 [recA] recA = recA ∧
      recA ∈ healthTick ⟨0, 0⟩ 100 [recA]) :=
  ⟨rfl, healthTick_attached_untouched ⟨0, 0⟩ 100 [recA] recA (by simp) rfl⟩

/-- C6: with `maxOrphanedSessions = 1`, two orphaned records of
different ages, and neither past its TTL, one Health Monitor tick kills
exactly the older orphan (oldest-created-first eviction) and leaves the
newer one untouched. -/
theorem healthTick_orphan_eviction (cfg : HealthConfig) (now : Nat)
    (r1 r2 : SessionRecord) (hmax : cfg.maxOrphanedSessions = 1)
    (h1 : r1.state = SessionState.Orphaned)
    (h2 : r2.state = SessionState.Orphaned)
    (hage : r1.createdAt < r2.createdAt)
    (httl1 : now - r1.createdAt ≤ cfg.sessionTTL)
    (httl2 : now - r2.createdAt ≤ cfg.sessionTTL) :
    healthTick cfg now [r1, r2] = [killRecord r1, r2] ∧
    (killRecord r1).state = SessionState.Dead ∧
    r2.state = SessionState.Orphaned := by
  have e11 : decide (r1.createdAt < r1.createdAt) = false :=
    decide_eq_false (Nat.lt_irrefl _)
  have e21 : decide (r2.createdAt < r1.createdAt) = false :=
    decide_eq_false (Nat.lt_asymm hage)
  have e12 : decide (r1.createdAt < r2.createdAt) = true := decide_eq_true hage
  have et1 : decide (cfg.sessionTTL < now - r1.createdAt) = false :=
    decide_eq_false (Nat.not_lt.mpr httl1)
  have et2 : decide (cfg.sessionTTL < now - r2.createdAt) = false :=
    decide_eq_false (Nat.not_lt.mpr httl2)
  refine ⟨?_, rfl, h2⟩
  simp [healthTick, tickRecord, ttlExpired, evictExcess, isCleanupCandidate,
    olderOrphans, orphanCount, h1, h2, hmax, e11, e21, e12, et1, et2]

/-- Witness for C6 at two concrete orphans of different ages. -/
theorem healthTick_orphan_eviction_witness :
    orphOld.createdAt < orphNew.createdAt ∧
    (healthTick ⟨1000, 1⟩ 30 [orphOld, orphNew] = [killRecord orphOld, orphNew] ∧
      (killRecord orphOld).state = SessionState.Dead ∧
      orphNew.state = SessionState.Orphaned) :=
  ⟨by decide,
   healthTick_orphan_eviction ⟨1000, 1⟩ 30 orphOld orphNew rfl rfl rfl
     (by decide) (by decide) (by decide)⟩

/-- C5: the id-to-name mapping is the pure function appending the fixed
application tag to the terminal id — the same id always derives the same
name (so identity survives restarts with no lookup table), and distinct
ids never collide (the name determines the id). -/
theorem sessionName_pure_function :
    (∀ i : String, sessionName i = sessionNameBase ++ i) ∧
    (∀ a b : String, sessionName a = sessionName b ↔ a = b) := by
  refine ⟨fun i => rfl, fun a b => ⟨fun h => ?_, fun h => by rw [h]⟩⟩
  have hd : sessionNameBase.data ++ a.data = sessionNameBase.data ++ b.data := by
    have hc := congrArg String.data h
    simpa [sessionName, String.data_append] using hc
  exact String.ext (List.append_cancel_left hd)

/-- C7: `Reconciler.Discover()` is a deterministic, side-effect-free
read — as a state-passing operation it returns the host namespace and the
Registry unchanged, and a second consecutive call on the resulting states
yields the identical `OrphanDescriptor` snapshot. -/
theorem discover_deterministic_read :
    ∀ (now : Nat) (host : List HostSession) (reg : List SessionRecord)
      (ids : List String),
      discoverFull now host reg ids = (discover now host ids, host, reg) ∧
      (discoverFull now (discoverFull now host reg ids).2.1
          (discoverFull now host reg ids).2.2 ids).1 =
        (discoverFull now host reg ids).1 :=
  fun _ _ _ _ => ⟨rfl, rfl⟩

/-- C8: `IsHostAvailable()` is total and never throws — it always yields
a boolean, and both failure conditions (missing host binary, failed
version check) resolve to `false`. -/
theorem isHostAvailable_total (e : HostEnv) :
    (isHostAvailable e = true ∨ isHostAvailable e = false) ∧
    (e.binaryInstalled = false → isHostAvailable e = false) ∧
    (e.versionOk = false → isHostAvailable e = false) := by
  refine ⟨?_, fun h => ?_, fun h => ?_⟩
  · cases hb : isHostAvailable e
    · exact Or.inr rfl
    · exact Or.inl rfl
  · simp [isHostAvailable, runHostProbe, h]
  · cases hb : e.binaryInstalled <;>
      simp [isHostAvailable, runHostProbe, hb, h]

/-- Witness for C8 at both failure environments. -/
theorem isHostAvailable_total_witness :
    (HostEnv.mk false true).binaryInstalled = false ∧
    isHostAvailable ⟨false, true⟩ = false ∧
    isHostAvailable ⟨true, false⟩ = false :=
  ⟨rfl, (isHostAvailable_total ⟨false, true⟩).2.1 rfl,
   (isHostAvailable_total ⟨true, false⟩).2.2 rfl⟩

/-- C9: whenever `loadDiff` runs past its guard and the IPC call throws
or resolves to an unsuccessful result (nullish value, `success` false, or
no `diff` payload), the resulting state carries a non-null `error`
message, keeps the previously held `diffData` unchanged, and the busy
flag that was raised (`refreshing` on a refresh, `loading` otherwise) is
back to `false`. -/
theorem loadDiff_failure_path
    (workspaceId worktreeId worktreeBranch workspaceName : Option String)
    (timestamp : String) (isRefresh : Bool) (outcome : IpcOutcome)
    (st : DiffState)
    (hws : optStrTruthy workspaceId = true)
    (hwt : optStrTruthy worktreeId = true)
    (hfail : (∃ m, outcome = IpcOutcome.threw m) ∨
      outcome = IpcOutcome.returned none ∨
      (∃ r, outcome = IpcOutcome.returned (some r) ∧ resultOk r = false)) :
    (loadDiff true workspaceId worktreeId worktreeBranch workspaceName
        timestamp isRefresh outcome st).error ≠ none ∧
    (loadDiff true workspaceId worktreeId worktreeBranch workspaceName
        timestamp isRefresh outcome st).diffData = st.diffData ∧
    (isRefresh = true →
      (loadDiff true workspaceId worktreeId worktreeBranch workspaceName
        timestamp isRefresh outcome st).refreshing = false) ∧
    (isRefresh = false →
      (loadDiff true workspaceId worktreeId worktreeBranch workspaceName
        timestamp isRefresh outcome st).loading = false) := by
  rcases hfail with ⟨m, rfl⟩ | rfl | ⟨r, rfl, hr⟩
  · cases isRefresh <;> simp [loadDiff, hws, hwt]
  · cases isRefresh <;> simp [loadDiff, hws, hwt]
  · cases isRefresh <;> simp [loadDiff, hws, hwt, hr]

/-- Witness for C9: a throwing IPC call on an initial state. -/
theorem loadDiff_failure_witness :
    optStrTruthy (some "ws") = true ∧ optStrTruthy (some "wt") = true ∧
    ((loadDiff true (some "ws") (some "wt") none none "ts" false
        (IpcOutcome.threw "boom") ⟨false, false, none, none⟩).error ≠ none ∧
     (loadDiff true (some "ws") (some "wt") none none "ts" false
        (IpcOutcome.threw "boom") ⟨false, false, none, none⟩).diffData =
       (DiffState.mk false false none none).diffData ∧
     (false = true →
       (loadDiff true (some "ws") (some "wt") none none "ts" false
         (IpcOutcome.threw "boom") ⟨false, false, none, none⟩).refreshing = false) ∧
     (false = false →
       (loadDiff true (some "ws") (some "wt") none none "ts" false
         (IpcOutcome.threw "boom") ⟨false, false, none, none⟩).loading = false)) :=
  ⟨by decide, by decide,
   loadDiff_failure_path (some "ws") (some "wt") none none "ts" false
     (IpcOutcome.threw "boom") ⟨false, false, none, none⟩ (by decide) (by decide)
     (Or.inl ⟨"boom", rfl⟩)⟩

lemma toggleOne_twice (gid : String) (g : SidebarTabGroup)
    (h : g.isCollapsed.isSome = true) : toggleOne gid (toggleOne gid g) = g := by
  obtain ⟨gi, gn, gt, gc⟩ := g
  cases gc with
  | none => simp at h
  | some b =>
    by_cases hid : gi = gid <;>
      simp [toggleOne, hid]

/-- C10: `toggleGroupCollapse(groupId)` maps a per-group transform over
the tab-group list that negates the `isCollapsed` flag of the groups
whose id is `groupId` (the new flag is the boolean negation of the old
one, an unset flag counting as `false`) and changes nothing else: id,
name and tab list are preserved, other groups are returned as they are.
On any state in which every group has its `isCollapsed` flag set — as
every state reachable in `Sidebar` does, starting from the stub data —
applying it twice with the same `groupId` restores the original list
(involution). -/
theorem toggleGroupCollapse_behavior :
    (∀ (gid : String) (g : SidebarTabGroup), g.id = gid →
      (toggleOne gid g).isCollapsed = some (!(g.isCollapsed.getD false))) ∧
    (∀ (gid : String) (g : SidebarTabGroup),
      (toggleOne gid g).id = g.id ∧ (toggleOne gid g).name = g.name ∧
        (toggleOne gid g).tabs = g.tabs) ∧
    (∀ (gid : String) (g : SidebarTabGroup), g.id ≠ gid → toggleOne gid g = g) ∧
    (∀ (groups : List SidebarTabGroup) (gid : String),
      toggleGroupCollapse groups gid = groups.map (toggleOne gid)) ∧
    (∀ g ∈ initialTabGroups, g.isCollapsed.isSome = true) ∧
    (∀ (groups : List SidebarTabGroup) (gid : String),
      (∀ g ∈ groups, g.isCollapsed.isSome = true) →
        ∀ g ∈ toggleGroupCollapse groups gid, g.isCollapsed.isSome = true) ∧
    (∀ (groups : List SidebarTabGroup) (gid : String),
      (∀ g ∈ groups, g.isCollapsed.isSome = true) →
        toggleGroupCollapse (toggleGroupCollapse groups gid) gid = groups) := by
  refine ⟨?_, ?_, ?_, fun _ _ => rfl, by decide, ?_, ?_⟩
  · intro gid g h
    simp [toggleOne, h]
  · intro gid g
    unfold toggleOne
    split <;> exact ⟨rfl, rfl, rfl⟩
  · intro gid g h
    simp [toggleOne, h]
  · intro groups gid hall g hg
    rcases List.mem_map.mp hg with ⟨a, ha, rfl⟩
    unfold toggleOne
    split
    · simp
    · exact hall a ha
  · intro groups gid hall
    unfold toggleGroupCollapse
    rw [List.map_map]
    calc groups.map (toggleOne gid ∘ toggleOne gid)
        = groups.map id :=
          List.map_congr_left (fun g hg => toggleOne_twice gid g (hall g hg))
      _ = groups := List.map_id groups

/-- Witness for C10: toggling the first stub group negates its
`isCollapsed` flag, and the double toggle restores the component's stub
state, whose groups all set `isCollapsed`. -/
theorem toggleGroupCollapse_involution_witness :
    (toggleOne "group-1"
        { id := "group-1", name := "Development", tabs := [],
          isCollapsed := some false }).isCollapsed =
      some (!((some false : Option Bool).getD false)) ∧
    toggleGroupCollapse (toggleGroupCollapse initialTabGroups "group-1")
      "group-1" = initialTabGroups :=
  ⟨toggleGroupCollapse_behavior.1 "group-1"
     { id := "group-1", name := "Development", tabs := [],
       isCollapsed := some false } rfl,
   toggleGroupCollapse_behavior.2.2.2.2.2.2 initialTabGroups "group-1" (by decide)⟩

end Superset
